import Mathlib

/-!
# Verification of `Chapter09/tls-server.c`

A shallow embedding of the TLS echo server from
`Demystifying-Cryptography-with-OpenSSL-3`, file `src/Chapter09/tls-server.c`.

The program's own control flow (`main`, `run_tls_server`,
`handle_accepted_connection`) is translated into executable Lean functions.
The OpenSSL library calls (`BIO_do_handshake`, `BIO_get_line`, `BIO_write`,
`BIO_do_accept`, `SSL_CTX_use_PrivateKey_file`, ...) are external
collaborators: each call site consumes a scripted `ExtCall` result supplied by
the environment, together with the list of diagnostic records that call pushes
onto OpenSSL's thread-local error queue (`ERR_*`).  The error queue itself is
modelled explicitly as a list threaded through the control flow, so that
`ERR_clear_error` / `ERR_peek_error` / `ERR_print_errors_fp` become visible
state operations.
-/

set_option autoImplicit false

namespace TlsServer

/-- An entry of OpenSSL's thread-local error queue (an opaque packed error
code, as produced by `ERR_raise` and inspected by `ERR_peek_error`). -/
abbrev DiagRecord := Nat

/-- The pending OpenSSL error queue, oldest record first. -/
abbrev ErrQueue := List DiagRecord

/-- The scripted outcome of one external library call: the value the call
returns to the program, plus the diagnostic records the call pushes onto the
OpenSSL error queue. -/
structure ExtCall (α : Type) where
  result : α
  pushed : ErrQueue
deriving DecidableEq, Repr

/-- `SSL_ERROR_ZERO_RETURN` from `openssl/ssl.h`: the peer sent close_notify. -/
def SSL_ERROR_ZERO_RETURN : Int := 6

/-- `const size_t BUF_SIZE = 16 * 1024;` in `handle_accepted_connection`. -/
def BUF_SIZE : Nat := 16 * 1024

/-- Outcome of one `BIO_get_line(ssl_bio, in_buf, BUF_SIZE)` call:
either a positive-length line placed in the buffer, or a return value
`nbytes_read <= 0` together with the value `SSL_get_error` then reports. -/
inductive ReadResult
  | ok (line : List Char)
  | errRead (sslError : Int)
deriving DecidableEq, Repr

/-- The environment of one iteration of the receive loop: the value of the
`SSL_RECEIVED_SHUTDOWN` flag tested by the loop condition, and the result of
the `BIO_get_line` call (with the records it pushes on the error queue).
`pushed` is only consumed when the flag is down, because the read only
happens then. -/
structure IterInput where
  receivedShutdown : Bool
  readResult : ReadResult
  pushed : ErrQueue
deriving DecidableEq, Repr

/-- `!strcmp(in_buf, "\r\n") || !strcmp(in_buf, "\n")` — the empty-line
request terminator test. -/
def emptyLineTerm (l : List Char) : Bool :=
  l == ("\r\n").toList || l == ("\n").toList

/-- How the receive loop of `handle_accepted_connection` ended. -/
inductive RLOutcome
  | normal
  | failed (sslError : Int)
  | exhausted
deriving DecidableEq, Repr

/-- Externally visible calls made by `handle_accepted_connection`, in order. -/
inductive HAction
  | handshakeCall
  | readLineCall
  | writeCall (bytes : List Char)
  | shutdownCall
  | freeResources
deriving DecidableEq, Repr

/-- Is this action a `BIO_write` call? -/
def HAction.isWrite : HAction → Bool
  | .writeCall _ => true
  | _ => false

/-- Result of the receive loop: how it ended, the lines echoed to stdout (in
order, including a terminator line), the `BIO_get_line` calls made, and the
error queue afterwards. -/
structure RLResult where
  outcome : RLOutcome
  echoed : List (List Char)
  trace : List HAction
  q : ErrQueue
deriving DecidableEq, Repr

/-- The receive loop of `handle_accepted_connection` (lines 169–184):

```
while ((SSL_get_shutdown(ssl) & SSL_RECEIVED_SHUTDOWN) != SSL_RECEIVED_SHUTDOWN) {
    int nbytes_read = BIO_get_line(ssl_bio, in_buf, BUF_SIZE);
    if (nbytes_read <= 0) {
        int ssl_error = SSL_get_error(ssl, nbytes_read);
        if (ssl_error == SSL_ERROR_ZERO_RETURN)
            break;
        ... goto failure;                       -- read error, reason code
    }
    fwrite(in_buf, 1, nbytes_read, stdout);     -- echo the line
    if (!strcmp(in_buf, "\r\n") || !strcmp(in_buf, "\n"))
        break;                                  -- empty-line terminator
}
```

`exhausted` marks a run whose scripted input ended while the loop would
still be reading (the real loop would block in `BIO_get_line`). -/
def readLoop : List IterInput → ErrQueue → RLResult
  | [], q => ⟨.exhausted, [], [], q⟩
  | i :: rest, q =>
    if i.receivedShutdown then ⟨.normal, [], [], q⟩
    else
      let q1 := q ++ i.pushed
      match i.readResult with
      | .errRead e =>
        if e = SSL_ERROR_ZERO_RETURN then ⟨.normal, [], [.readLineCall], q1⟩
        else ⟨.failed e, [], [.readLineCall], q1⟩
      | .ok line =>
        if emptyLineTerm line then ⟨.normal, [line], [.readLineCall], q1⟩
        else
          let r := readLoop rest q1
          ⟨r.outcome, line :: r.echoed, .readLineCall :: r.trace, r.q⟩

/-- Error-stream reports a connection handler can emit. -/
inductive Report
  | handshakeError
  | readError (sslError : Int)
  | shortWriteError
  | drainReport (records : ErrQueue)
deriving DecidableEq, Repr

/-- What one call of `handle_accepted_connection` did, as observable from
outside: its return value (`exit_code`), the reports written to
`error_stream`, the lines echoed to stdout, the external calls it performed,
whether the per-connection resources (`ssl_bio` chain and `in_buf`) were
released, and whether the run is still blocked inside the receive loop. -/
structure HandlerResult where
  exitCode : Nat
  reports : List Report
  echoed : List (List Char)
  trace : List HAction
  released : Bool
  blocked : Bool
deriving DecidableEq, Repr

/-- The fixed HTTP-like response written by `handle_accepted_connection`. -/
def RESPONSE : List Char :=
  ("HTTP/1.0 200 OK\r\nContent-type: text/plain\r\nConnection: close\r\nServer: Example TLS server\r\n\r\nHello from the TLS server!\n").toList

/-- The scripted environment of one accepted connection: the handshake
outcome, the receive-loop iterations, the `BIO_write` outcome (`result` is
the `nbytes_written` the call returns), and the records `BIO_ssl_shutdown`
pushes onto the error queue.  `BIO_ssl_shutdown`'s return value is not part
of the script because the C code discards it. -/
structure ConnScript where
  handshake : ExtCall Bool
  iters : List IterInput
  write : ExtCall Int
  shutdownPushed : ErrQueue
deriving DecidableEq, Repr

/-- The `failure:`/`cleanup:` tail of `handle_accepted_connection`
(lines 210–227): free the BIO chain and the buffer, then, if the error queue
is non-empty, force `exit_code = 1`, print the queue and clear it. -/
def cleanupHandler (ec : Nat) (reports : List Report) (echoed : List (List Char))
    (trace : List HAction) (q : ErrQueue) : HandlerResult × ErrQueue :=
  if q.isEmpty then
    (⟨ec, reports, echoed, trace ++ [.freeResources], true, false⟩, [])
  else
    (⟨1, reports ++ [.drainReport q], echoed, trace ++ [.freeResources], true, false⟩, [])

/-- `handle_accepted_connection(ssl_bio, error_stream)` (lines 141–228).
`q0` is the error queue as the handler finds it; the first statement of the
body, `ERR_clear_error()`, discards it, so after the handshake call the queue
holds exactly the records that call pushed. -/
def handleAcceptedConnection (s : ConnScript) (q0 : ErrQueue) : HandlerResult × ErrQueue :=
  -- ERR_clear_error(): q0 is discarded
  let q := s.handshake.pushed
  if !s.handshake.result then
    cleanupHandler 1 [.handshakeError] [] [.handshakeCall] q
  else
    let r := readLoop s.iters q
    match r.outcome with
    | .exhausted =>
        (⟨0, [], r.echoed, .handshakeCall :: r.trace, false, true⟩, r.q)
    | .failed e =>
        cleanupHandler 1 [.readError e] r.echoed (.handshakeCall :: r.trace) r.q
    | .normal =>
        let q2 := r.q ++ s.write.pushed
        if s.write.result != (RESPONSE.length : Int) then
          cleanupHandler 1 [.shortWriteError] r.echoed
            (.handshakeCall :: r.trace ++ [.writeCall RESPONSE]) q2
        else
          let q3 := q2 ++ s.shutdownPushed
          cleanupHandler 0 [] r.echoed
            (.handshakeCall :: r.trace ++ [.writeCall RESPONSE, .shutdownCall]) q3

/-- The scripted environment of the setup phase of `run_tls_server`:
the results of `SSL_CTX_use_PrivateKey_file`, `SSL_CTX_use_certificate_chain_file`,
`SSL_CTX_check_private_key` (each `result = true` iff the C call returned
`err > 0`) and of the first, binding `BIO_do_accept`. -/
structure SetupScript where
  keyLoad : ExtCall Bool
  certLoad : ExtCall Bool
  keyCertCheck : ExtCall Bool
  bindListen : ExtCall Bool
deriving DecidableEq, Repr

/-- The scripted environment of one iteration of the accept loop: the result
of the in-loop `BIO_do_accept`, and, when it succeeds, the environment of the
accepted connection. -/
structure LoopIter where
  accept : ExtCall Bool
  conn : ConnScript
deriving DecidableEq, Repr

/-- Error-stream reports `run_tls_server` can emit. -/
inductive SReport
  | keyLoadError
  | certLoadError
  | keyCertMismatchError
  | bindError
  | setupResidualError
  | acceptError
  | acceptDrain (records : ErrQueue)
  | connReport (rs : List Report)
  | finalDrain (records : ErrQueue)
deriving DecidableEq, Repr

/-- Externally visible calls made by `run_tls_server`, in order. -/
inductive SAction
  | keyLoadCall
  | certLoadCall
  | keyCertCheckCall
  | setModeCall
  | bindListenCall
  | acceptCall
  | handleConnCall
deriving DecidableEq, Repr

/-- What a run of `run_tls_server` did, as observable from outside. -/
structure ServerObs where
  reports : List SReport
  trace : List SAction
  enteredLoop : Bool
  connResults : List HandlerResult
  itersProcessed : Nat
deriving DecidableEq, Repr

/-- The state of a run of `run_tls_server`: `running` — the scripted accept
iterations were all consumed and the infinite loop would keep going (with the
given error queue); `blockedConn` — a connection handler is blocked inside
its receive loop; `exited` — the function returned (only failure paths can
return, since `while (1)` has no break). -/
inductive ServerOutcome
  | running (obs : ServerObs) (q : ErrQueue)
  | blockedConn (obs : ServerObs)
  | exited (exitCode : Nat) (obs : ServerObs)
deriving DecidableEq, Repr

/-- The observations of an outcome, whichever state it is in. -/
def ServerOutcome.obs : ServerOutcome → ServerObs
  | .running o _ => o
  | .blockedConn o => o
  | .exited _ o => o

/-- Did `run_tls_server` return? -/
def ServerOutcome.isExited : ServerOutcome → Bool
  | .exited _ _ => true
  | _ => false

/-- Is the accept loop still running (all scripted iterations consumed)? -/
def ServerOutcome.isRunning : ServerOutcome → Bool
  | .running _ _ => true
  | _ => false

/-- The return value of `run_tls_server`, when it returned. -/
def ServerOutcome.exitCode? : ServerOutcome → Option Nat
  | .exited c _ => some c
  | _ => none

/-- Prefix one loop iteration's observations onto those of the rest of the
run. -/
def ServerObs.prepend (rs : List SReport) (tr : List SAction)
    (crs : List HandlerResult) (o : ServerObs) : ServerObs :=
  ⟨rs ++ o.reports, tr ++ o.trace, true, crs ++ o.connResults, o.itersProcessed + 1⟩

/-- Prefix one loop iteration's observations onto a loop outcome. -/
def ServerOutcome.prepend (rs : List SReport) (tr : List SAction)
    (crs : List HandlerResult) : ServerOutcome → ServerOutcome
  | .running o q => .running (o.prepend rs tr crs) q
  | .blockedConn o => .blockedConn (o.prepend rs tr crs)
  | .exited c o => .exited c (o.prepend rs tr crs)

/-- The `while (1)` accept loop of `run_tls_server` (lines 91–121):

```
while (1) {
    err = BIO_do_accept(accept_bio);
    if (err <= 0) {
        fprintf(error_stream, "Error when trying to accept connection\n");
        if (ERR_peek_error()) {
            fprintf(error_stream, "Errors from the OpenSSL error queue:\n");
            ERR_print_errors_fp(error_stream);   -- prints AND empties the queue
            ERR_clear_error();
        }
        continue;
    }
    BIO* socket_bio = BIO_pop(accept_bio);
    BIO* ssl_bio = BIO_new_ssl(ctx, 0);
    BIO_push(ssl_bio, socket_bio);
    handle_accepted_connection(ssl_bio, error_stream);
}
```

The handler's return value is discarded, exactly as in the C code. -/
def serverLoop : List LoopIter → ErrQueue → ServerOutcome
  | [], q => .running ⟨[], [], true, [], 0⟩ q
  | it :: rest, q =>
    let q1 := q ++ it.accept.pushed
    if !it.accept.result then
      let drain : List SReport := if q1.isEmpty then [] else [.acceptDrain q1]
      (serverLoop rest []).prepend (.acceptError :: drain) [.acceptCall] []
    else
      let hc := handleAcceptedConnection it.conn q1
      if hc.1.blocked then
        .blockedConn ⟨[.connReport hc.1.reports], [.acceptCall, .handleConnCall], true, [hc.1], 0⟩
      else
        (serverLoop rest hc.2).prepend [.connReport hc.1.reports]
          [.acceptCall, .handleConnCall] [hc.1]

/-- The `failure:`/`cleanup:` tail of `run_tls_server` (lines 123–139), as
reached from a setup failure: `exit_code = 1`; free the BIOs and the context;
if the error queue is non-empty, print it and clear it. -/
def serverCleanupFail (reports : List SReport) (trace : List SAction)
    (q : ErrQueue) : ServerOutcome :=
  if q.isEmpty then
    .exited 1 ⟨reports, trace, false, [], 0⟩
  else
    .exited 1 ⟨reports ++ [.finalDrain q], trace, false, [], 0⟩

/-- The external calls of a fully successful setup phase, in source order. -/
def setupTrace : List SAction :=
  [.keyLoadCall, .certLoadCall, .keyCertCheckCall, .setModeCall, .bindListenCall]

/-- Prefix the setup-phase trace onto the loop outcome. -/
def ServerOutcome.withSetup : ServerOutcome → ServerOutcome
  | .running o q => .running ⟨o.reports, setupTrace ++ o.trace, o.enteredLoop, o.connResults, o.itersProcessed⟩ q
  | .blockedConn o => .blockedConn ⟨o.reports, setupTrace ++ o.trace, o.enteredLoop, o.connResults, o.itersProcessed⟩
  | .exited c o => .exited c ⟨o.reports, setupTrace ++ o.trace, o.enteredLoop, o.connResults, o.itersProcessed⟩

/-- `run_tls_server(port, keypair_fname, cert_chain_fname, error_stream)`
(lines 39–139).  `q0` is the error queue on entry; the body's first statement
`ERR_clear_error()` discards it.  Setup order, as in the source:
private-key load, certificate-chain load, key/certificate match check,
`SSL_CTX_set_mode(ctx, SSL_MODE_AUTO_RETRY)`, then the binding
`BIO_do_accept`; after a successful bind, a non-empty error queue is reported
as an unexpected setup error and the function fails before entering the
accept loop. -/
def runTlsServer (q0 : ErrQueue) (setup : SetupScript) (iters : List LoopIter) :
    ServerOutcome :=
  -- ERR_clear_error(): q0 is discarded
  let q1 := setup.keyLoad.pushed
  if !setup.keyLoad.result then
    serverCleanupFail [.keyLoadError] [.keyLoadCall] q1
  else
    let q2 := q1 ++ setup.certLoad.pushed
    if !setup.certLoad.result then
      serverCleanupFail [.certLoadError] [.keyLoadCall, .certLoadCall] q2
    else
      let q3 := q2 ++ setup.keyCertCheck.pushed
      if !setup.keyCertCheck.result then
        serverCleanupFail [.keyCertMismatchError]
          [.keyLoadCall, .certLoadCall, .keyCertCheckCall] q3
      else
        -- SSL_CTX_set_mode(ctx, SSL_MODE_AUTO_RETRY): no error queue effect
        let q4 := q3 ++ setup.bindListen.pushed
        if !setup.bindListen.result then
          serverCleanupFail [.bindError] setupTrace q4
        else if !q4.isEmpty then
          serverCleanupFail [.setupResidualError] setupTrace q4
        else
          (serverLoop iters []).withSetup

/-- How the process run ended, from `main`'s point of view. -/
inductive MainOutcome
  | usageExit
  | processExit (code : Nat) (obs : ServerObs)
  | stillRunning (obs : ServerObs)
  | blockedConn (obs : ServerObs)
deriving DecidableEq, Repr

/-- The process exit code, when the process exited through `main`'s normal
return path. -/
def MainOutcome.code? : MainOutcome → Option Nat
  | .processExit c _ => some c
  | _ => none

/-- What a run of `main` did: whether the usage message was printed, the
argument triple passed to `run_tls_server` (the third component is `none`
when `argv[3]` is the terminating null pointer), and the outcome. -/
structure MainResult where
  usagePrinted : Bool
  serverArgs : Option (String × String × Option String)
  outcome : MainOutcome
deriving DecidableEq, Repr

/-- `main(argc, argv)` (lines 12–37).  `argv` is the C argument vector
including the program name, so `argc = argv.length`; a C argument vector also
carries `argv[argc] = NULL`, which is why `argv[3]` reads as `none` when
`argc = 3`.  The guard is the source's `if (argc != 3 && argc != 4)`. -/
def mainFn (argv : List String) (q0 : ErrQueue) (setup : SetupScript)
    (iters : List LoopIter) : MainResult :=
  let argc := argv.length
  if argc ≠ 3 ∧ argc ≠ 4 then
    ⟨true, none, .usageExit⟩
  else
    let port := (argv[1]?).getD ""
    let keypairFname := (argv[2]?).getD ""
    let certChainFname := argv[3]?
    match runTlsServer q0 setup iters with
    | .exited c obs =>
        ⟨false, some (port, keypairFname, certChainFname),
         .processExit (if c ≠ 0 then 1 else 0) obs⟩
    | .running obs _ =>
        ⟨false, some (port, keypairFname, certChainFname), .stillRunning obs⟩
    | .blockedConn obs =>
        ⟨false, some (port, keypairFname, certChainFname), .blockedConn obs⟩

/-- Stream-level model of one `BIO_get_line(bio, buf, size)` call on a
pending byte stream: the call fills the buffer with bytes up to and including
the first `'\n'`, but with at most `size - 1` bytes (one slot is kept for the
terminating NUL), and returns how many bytes it placed.  `takeLine cap s`
returns the buffer contents (at most `cap` bytes) and the unconsumed rest of
the stream. -/
def takeLine : Nat → List Char → List Char × List Char
  | 0, s => ([], s)
  | _ + 1, [] => ([], [])
  | n + 1, c :: rest =>
    if c = '\n' then ([c], rest)
    else
      let r := takeLine n rest
      (c :: r.1, r.2)

/-- The receive-loop iteration inputs produced by reading a pending byte
stream with `BIO_get_line` into the 16 KiB buffer: no shutdown flag is raised
and no error-queue records are pushed while data keeps arriving; each
successful read yields one `ok` line of at most `BUF_SIZE - 1` bytes.
`fuel` bounds how many reads are scripted. -/
def streamEvents : Nat → List Char → List IterInput
  | 0, _ => []
  | fuel + 1, s =>
    let r := takeLine (BUF_SIZE - 1) s
    if r.1.isEmpty then []
    else ⟨false, .ok r.1, []⟩ :: streamEvents fuel r.2

/-- A setup script in which every external call succeeds and pushes no
diagnostic record: a valid, matching key/certificate pair and a bindable
port. -/
def okSetup : SetupScript := ⟨⟨true, []⟩, ⟨true, []⟩, ⟨true, []⟩, ⟨true, []⟩⟩

/-- A setup script in which every external call succeeds but the private-key
load leaves a residual record on the error queue. -/
def residualSetup : SetupScript := ⟨⟨true, [7]⟩, ⟨true, []⟩, ⟨true, []⟩, ⟨true, []⟩⟩

/-- A connection script: handshake succeeds, the client sends a bare newline
as its first line, the write is accepted in full, shutdown is clean. -/
def newlineConn : ConnScript :=
  ⟨⟨true, []⟩, [⟨false, .ok (("\n").toList), []⟩], ⟨(RESPONSE.length : Int), []⟩, []⟩

/-! ## Helper lemmas -/

/-- `ERR_clear_error()` is the first statement of
`handle_accepted_connection`, so the handler's behaviour does not depend on
the error queue it inherits. -/
theorem handler_queue_invariant (s : ConnScript) (q q' : ErrQueue) :
    handleAcceptedConnection s q = handleAcceptedConnection s q' := rfl

/-- The handler cleanup tail always leaves the error queue empty. -/
theorem cleanupHandler_queue (ec : Nat) (rs : List Report) (es : List (List Char))
    (tr : List HAction) (q : ErrQueue) : (cleanupHandler ec rs es tr q).2 = [] := by
  unfold cleanupHandler
  split <;> rfl

/-- The handler cleanup tail releases the per-connection resources and
returns (it is never blocked). -/
theorem cleanupHandler_released (ec : Nat) (rs : List Report) (es : List (List Char))
    (tr : List HAction) (q : ErrQueue) :
    (cleanupHandler ec rs es tr q).1.released = true ∧
    (cleanupHandler ec rs es tr q).1.blocked = false := by
  unfold cleanupHandler
  split <;> exact ⟨rfl, rfl⟩

/-- Every run of the handler either blocks inside the receive loop or leaves
the error queue empty. -/
theorem handler_final_queue_or (s : ConnScript) (q0 : ErrQueue) :
    (handleAcceptedConnection s q0).1.blocked = true ∨
    (handleAcceptedConnection s q0).2 = [] := by
  simp only [handleAcceptedConnection]
  split
  · exact .inr (cleanupHandler_queue ..)
  · split
    · exact .inl rfl
    · exact .inr (cleanupHandler_queue ..)
    · split
      · exact .inr (cleanupHandler_queue ..)
      · exact .inr (cleanupHandler_queue ..)

/-- A handler that returned (did not block inside the receive loop) left the
error queue empty. -/
theorem handler_final_queue (s : ConnScript) (q0 : ErrQueue)
    (h : (handleAcceptedConnection s q0).1.blocked = false) :
    (handleAcceptedConnection s q0).2 = [] := by
  rcases handler_final_queue_or s q0 with hb | hq
  · rw [hb] at h
    cases h
  · exact hq

theorem prepend_isExited (rs : List SReport) (tr : List SAction)
    (crs : List HandlerResult) (o : ServerOutcome) :
    (o.prepend rs tr crs).isExited = o.isExited := by
  cases o <;> rfl

theorem prepend_isRunning (rs : List SReport) (tr : List SAction)
    (crs : List HandlerResult) (o : ServerOutcome) :
    (o.prepend rs tr crs).isRunning = o.isRunning := by
  cases o <;> rfl

theorem prepend_obs (rs : List SReport) (tr : List SAction)
    (crs : List HandlerResult) (o : ServerOutcome) :
    (o.prepend rs tr crs).obs = o.obs.prepend rs tr crs := by
  cases o <;> rfl

/-- The accept loop has no exit path: `while (1)` contains no `break`, only
`continue`, so no run of the loop ends in a function return. -/
theorem serverLoop_not_exited (iters : List LoopIter) (q : ErrQueue) :
    (serverLoop iters q).isExited = false := by
  induction iters generalizing q with
  | nil => rfl
  | cons it rest ih =>
    simp only [serverLoop]
    split
    · rw [prepend_isExited]
      exact ih []
    · split
      · rfl
      · rw [prepend_isExited]
        exact ih _

/-- Every run of the accept loop records that the loop was entered. -/
theorem serverLoop_entered (iters : List LoopIter) (q : ErrQueue) :
    (serverLoop iters q).obs.enteredLoop = true := by
  induction iters generalizing q with
  | nil => rfl
  | cons it rest ih =>
    simp only [serverLoop]
    split
    · rw [prepend_obs]
      rfl
    · split
      · rfl
      · rw [prepend_obs]
        rfl

/-- If every scripted connection returns from its handler, the accept loop
consumes every scripted iteration and keeps running. -/
theorem serverLoop_runs (iters : List LoopIter) (q : ErrQueue)
    (h : ∀ it ∈ iters, (handleAcceptedConnection it.conn []).1.blocked = false) :
    (serverLoop iters q).isRunning = true ∧
    (serverLoop iters q).obs.itersProcessed = iters.length := by
  induction iters generalizing q with
  | nil => exact ⟨rfl, rfl⟩
  | cons it rest ih =>
    have hit : (handleAcceptedConnection it.conn []).1.blocked = false :=
      h it (List.mem_cons_self it rest)
    have hrest : ∀ x ∈ rest, (handleAcceptedConnection x.conn []).1.blocked = false :=
      fun x hx => h x (List.mem_cons_of_mem _ hx)
    simp only [serverLoop]
    split
    · rw [prepend_isRunning, prepend_obs]
      exact ⟨(ih [] hrest).1, by simp [ServerObs.prepend, (ih [] hrest).2]⟩
    · rw [handler_queue_invariant it.conn _ []]
      rw [if_neg (by simp [hit])]
      rw [prepend_isRunning, prepend_obs]
      exact ⟨(ih _ hrest).1, by simp [ServerObs.prepend, (ih _ hrest).2]⟩

/-- Observables of the failure tail of `run_tls_server`, for a single report:
it returns 1, the loop was not entered, and the report leads the error
stream. -/
theorem serverCleanupFail_single (e : SReport) (tr : List SAction) (q : ErrQueue) :
    (serverCleanupFail [e] tr q).isExited = true ∧
    (serverCleanupFail [e] tr q).exitCode? = some 1 ∧
    (serverCleanupFail [e] tr q).obs.enteredLoop = false ∧
    (serverCleanupFail [e] tr q).obs.trace = tr ∧
    (serverCleanupFail [e] tr q).obs.reports.head? = some e := by
  unfold serverCleanupFail
  split <;>
    exact ⟨rfl, rfl, rfl, rfl, rfl⟩

theorem withSetup_isExited (o : ServerOutcome) : o.withSetup.isExited = o.isExited := by
  cases o <;> rfl

theorem withSetup_isRunning (o : ServerOutcome) : o.withSetup.isRunning = o.isRunning := by
  cases o <;> rfl

theorem withSetup_exitCode (o : ServerOutcome) : o.withSetup.exitCode? = o.exitCode? := by
  cases o <;> rfl

theorem withSetup_entered (o : ServerOutcome) :
    o.withSetup.obs.enteredLoop = o.obs.enteredLoop := by
  cases o <;> rfl

theorem withSetup_iters (o : ServerOutcome) :
    o.withSetup.obs.itersProcessed = o.obs.itersProcessed := by
  cases o <;> rfl

theorem withSetup_trace (o : ServerOutcome) :
    o.withSetup.obs.trace = setupTrace ++ o.obs.trace := by
  cases o <;> rfl

/-- The only external calls the receive loop makes are `BIO_get_line` calls. -/
theorem readLoop_trace_reads (iters : List IterInput) (q : ErrQueue) :
    ∀ a ∈ (readLoop iters q).trace, a = .readLineCall := by
  induction iters generalizing q with
  | nil => simp [readLoop]
  | cons i rest ih =>
    simp only [readLoop]
    split
    · simp
    · split
      · split <;> simp
      · split
        · simp
        · intro a ha
          simp only [List.mem_cons] at ha
          rcases ha with rfl | ha
          · rfl
          · exact ih _ a ha

/-- A run of `run_tls_server` with a known exit code returned through the
failure path. -/
theorem exitCode_exists (o : ServerOutcome) (c : Nat) (h : o.exitCode? = some c) :
    ∃ obs, o = .exited c obs := by
  cases o with
  | running obs q => simp [ServerOutcome.exitCode?] at h
  | blockedConn obs => simp [ServerOutcome.exitCode?] at h
  | exited c' obs =>
    simp only [ServerOutcome.exitCode?, Option.some.injEq] at h
    exact ⟨obs, by rw [h]⟩

/-- Every run of `run_tls_server` either does not return, or never entered
the accept loop: the only return paths are the setup failure paths. -/
theorem runTlsServer_exit_entered (q0 : ErrQueue) (setup : SetupScript)
    (iters : List LoopIter) :
    (runTlsServer q0 setup iters).isExited = false ∨
    (runTlsServer q0 setup iters).obs.enteredLoop = false := by
  simp only [runTlsServer]
  split
  · exact .inr (serverCleanupFail_single ..).2.2.1
  · split
    · exact .inr (serverCleanupFail_single ..).2.2.1
    · split
      · exact .inr (serverCleanupFail_single ..).2.2.1
      · split
        · exact .inr (serverCleanupFail_single ..).2.2.1
        · split
          · exact .inr (serverCleanupFail_single ..).2.2.1
          · exact .inl (by rw [withSetup_isExited]; exact serverLoop_not_exited ..)

/-- When the error queue is non-empty at the failure tail, the queue is
printed as part of the report before being cleared. -/
theorem serverCleanupFail_drain (e : SReport) (tr : List SAction) (q : ErrQueue)
    (hq : q ≠ []) :
    .finalDrain q ∈ (serverCleanupFail [e] tr q).obs.reports := by
  unfold serverCleanupFail
  rw [if_neg (by simp [hq])]
  simp [ServerOutcome.obs]

/-- `BIO_get_line` on a stream whose next `cap` bytes contain no newline
fills the buffer with exactly those `cap` bytes. -/
theorem takeLine_no_newline (n : Nat) (s : List Char)
    (hlen : n ≤ s.length) (hnl : ∀ c ∈ s.take n, c ≠ '\n') :
    takeLine n s = (s.take n, s.drop n) := by
  induction n generalizing s with
  | zero => simp [takeLine]
  | succ n ih =>
    cases s with
    | nil => simp at hlen
    | cons c rest =>
      have hc : c ≠ '\n' := hnl c (by simp)
      have hrest := ih rest (by simpa using hlen)
        (fun x hx => hnl x (by simp [hx]))
      simp only [takeLine, if_neg hc, hrest, List.take_succ_cons, List.drop_succ_cons]

/-! ## Claim theorems -/

/-- **C1.** The claim says every invocation whose positional-argument count
differs from the three expected prints usage and exits nonzero without
constructing the context.  The code's guard is `argc != 3 && argc != 4`, so
an invocation with only two positional arguments (`argc = 3`) — one argument
missing — skips the usage message and calls `run_tls_server` with the null
`argv[3]` as certificate-chain filename, contradicting the usage string the
program itself prints (`PORT SERVER_KEYPAIR_FILE SERVER_CERT_CHAIN_FILE`).
One argument (`argc = 2`) and four arguments (`argc = 5`) do take the usage
branch. -/
theorem main_missing_argument_code_bug :
    (mainFn ["tls-server", "4433", "key.pem"] [] okSetup []).usagePrinted = false ∧
    (mainFn ["tls-server", "4433", "key.pem"] [] okSetup []).serverArgs =
      some ("4433", "key.pem", none) ∧
    (mainFn ["tls-server", "4433"] [] okSetup []).usagePrinted = true ∧
    (mainFn ["tls-server", "4433"] [] okSetup []).outcome = .usageExit ∧
    (mainFn ["tls-server", "4433", "key.pem", "chain.pem", "extra"] [] okSetup
      []).usagePrinted = true ∧
    (mainFn ["tls-server", "4433", "key.pem", "chain.pem", "extra"] [] okSetup
      []).outcome = .usageExit := by
  decide

/-- **C3.** The receive loop exits normally exactly on a peer shutdown signal
(the `SSL_RECEIVED_SHUTDOWN` flag, checked first each iteration, or
`SSL_ERROR_ZERO_RETURN` on a failed read) or on a bare `"\r\n"`/`"\n"` line;
a read returning non-positive length with any other `SSL_get_error` value
fails the handler, which reports `ReadError` with that reason code. -/
theorem read_loop_exit_conditions (i : IterInput) (rest : List IterInput)
    (q : ErrQueue) (s : ConnScript) (q0 : ErrQueue) :
    (i.receivedShutdown = true → readLoop (i :: rest) q = ⟨.normal, [], [], q⟩) ∧
    (i.receivedShutdown = false →
      (∀ e, i.readResult = .errRead e →
        (e = SSL_ERROR_ZERO_RETURN →
          readLoop (i :: rest) q = ⟨.normal, [], [.readLineCall], q ++ i.pushed⟩) ∧
        (e ≠ SSL_ERROR_ZERO_RETURN →
          readLoop (i :: rest) q = ⟨.failed e, [], [.readLineCall], q ++ i.pushed⟩)) ∧
      (∀ line, i.readResult = .ok line →
        (emptyLineTerm line = true →
          readLoop (i :: rest) q = ⟨.normal, [line], [.readLineCall], q ++ i.pushed⟩) ∧
        (emptyLineTerm line = false →
          readLoop (i :: rest) q =
            ⟨(readLoop rest (q ++ i.pushed)).outcome,
             line :: (readLoop rest (q ++ i.pushed)).echoed,
             .readLineCall :: (readLoop rest (q ++ i.pushed)).trace,
             (readLoop rest (q ++ i.pushed)).q⟩))) ∧
    (∀ e, s.handshake.result = true →
      (readLoop s.iters s.handshake.pushed).outcome = .failed e →
      (handleAcceptedConnection s q0).1.exitCode = 1 ∧
      .readError e ∈ (handleAcceptedConnection s q0).1.reports) := by
  refine ⟨fun h => ?_, fun h => ⟨fun e he => ⟨fun hz => ?_, fun hz => ?_⟩,
    fun line hl => ⟨fun ht => ?_, fun ht => ?_⟩⟩, fun e hh hf => ?_⟩
  · simp [readLoop, h]
  · simp [readLoop, h, he, hz]
  · simp [readLoop, h, he, if_neg hz]
  · simp [readLoop, h, hl, ht]
  · simp [readLoop, h, hl, ht]
  · simp only [handleAcceptedConnection, hh, Bool.not_true, Bool.false_eq_true,
      if_false, hf]
    unfold cleanupHandler
    split <;> simp

/-- Witness for `read_loop_exit_conditions`: a single read failing with
`SSL_get_error = 1` (`SSL_ERROR_SSL`) fails the loop and makes the handler
report `ReadError 1` and return 1. -/
theorem read_loop_exit_conditions_witness :
    readLoop [⟨false, .errRead 1, [9]⟩] [] = ⟨.failed 1, [], [.readLineCall], [9]⟩ ∧
    (handleAcceptedConnection ⟨⟨true, []⟩, [⟨false, .errRead 1, [9]⟩], ⟨0, []⟩, []⟩
      []).1.exitCode = 1 := by
  have h := read_loop_exit_conditions ⟨false, .errRead 1, [9]⟩ [] []
    ⟨⟨true, []⟩, [⟨false, .errRead 1, [9]⟩], ⟨0, []⟩, []⟩ []
  exact ⟨((h.2.1 rfl).1 1 rfl).2 (by decide),
    (h.2.2 1 rfl (by decide)).1⟩

/-- **C4.** After a successful handshake, if the first line read is a bare
newline the receive loop stops after that one line, and the handler performs
exactly one write, of the full fixed HTTP response, before the secure-channel
shutdown and the resource release. -/
theorem bare_newline_fixed_response (s : ConnScript) (q0 : ErrQueue)
    (rest : List IterInput) (p : ErrQueue)
    (hh : s.handshake.result = true)
    (hi : s.iters = ⟨false, .ok (("\n").toList), p⟩ :: rest)
    (hw : s.write.result = (RESPONSE.length : Int)) :
    (handleAcceptedConnection s q0).1.echoed = [("\n").toList] ∧
    (handleAcceptedConnection s q0).1.trace =
      [.handshakeCall, .readLineCall, .writeCall RESPONSE, .shutdownCall,
       .freeResources] ∧
    (handleAcceptedConnection s q0).1.blocked = false := by
  have hrl : readLoop s.iters s.handshake.pushed =
      ⟨.normal, [("\n").toList], [.readLineCall], s.handshake.pushed ++ p⟩ := by
    rw [hi]
    simp [readLoop, emptyLineTerm]
  simp only [handleAcceptedConnection, hh, Bool.not_true, Bool.false_eq_true,
    if_false, hrl]
  rw [if_neg (by simp [hw])]
  unfold cleanupHandler
  split <;> simp

/-- Witness for `bare_newline_fixed_response` at the concrete script
`newlineConn`. -/
theorem bare_newline_fixed_response_witness :
    (handleAcceptedConnection newlineConn []).1.echoed = [("\n").toList] ∧
    (handleAcceptedConnection newlineConn []).1.trace =
      [.handshakeCall, .readLineCall, .writeCall RESPONSE, .shutdownCall,
       .freeResources] := by
  have h := bare_newline_fixed_response newlineConn [] [] [] rfl rfl rfl
  exact ⟨h.1, h.2.1⟩

/-- **C6.** If `BIO_write` accepts a number of bytes different from the exact
response length, the handler fails with a `ShortWriteError` report, performs
no second or partial write (its trace holds exactly one write, of the full
response), still releases the per-connection resources, and returns to the
accept loop. -/
theorem short_write_failure (s : ConnScript) (q0 : ErrQueue)
    (hh : s.handshake.result = true)
    (hr : (readLoop s.iters s.handshake.pushed).outcome = .normal)
    (hw : s.write.result ≠ (RESPONSE.length : Int)) :
    (handleAcceptedConnection s q0).1.exitCode = 1 ∧
    .shortWriteError ∈ (handleAcceptedConnection s q0).1.reports ∧
    (handleAcceptedConnection s q0).1.released = true ∧
    (handleAcceptedConnection s q0).1.blocked = false ∧
    (handleAcceptedConnection s q0).1.trace.filter HAction.isWrite =
      [.writeCall RESPONSE] := by
  have hreads := readLoop_trace_reads s.iters s.handshake.pushed
  simp only [handleAcceptedConnection, hh, Bool.not_true, Bool.false_eq_true,
    if_false, hr]
  rw [if_pos (by simp [hw])]
  unfold cleanupHandler
  split <;>
    refine ⟨rfl, by simp, rfl, rfl, ?_⟩ <;>
    · simp only [List.filter_append, List.filter_cons]
      rw [List.filter_eq_nil_iff.mpr (fun a ha => by rw [hreads a ha]; decide)]
      simp [HAction.isWrite]

/-- Witness for `short_write_failure`: a write that accepts 0 of the
response's bytes. -/
theorem short_write_failure_witness :
    (handleAcceptedConnection
      ⟨⟨true, []⟩, [⟨false, .ok (("\n").toList), []⟩], ⟨0, []⟩, []⟩ []).1.exitCode = 1 ∧
    .shortWriteError ∈ (handleAcceptedConnection
      ⟨⟨true, []⟩, [⟨false, .ok (("\n").toList), []⟩], ⟨0, []⟩, []⟩ []).1.reports := by
  have h := short_write_failure
    ⟨⟨true, []⟩, [⟨false, .ok (("\n").toList), []⟩], ⟨0, []⟩, []⟩ [] rfl
    (by decide) (by decide)
  exact ⟨h.1, h.2.1⟩

/-- **C8.** On a connection that reaches the shutdown stage, the
secure-channel shutdown is best-effort: whatever diagnostic records
`BIO_ssl_shutdown` leaves behind (its return value is discarded by the code),
the handler emits no failure report, still performs the shutdown and the
resource release, and the residual records are reported by the cleanup drain,
which leaves the queue empty. -/
theorem shutdown_best_effort (s : ConnScript) (q0 : ErrQueue)
    (hh : s.handshake.result = true)
    (hr : (readLoop s.iters s.handshake.pushed).outcome = .normal)
    (hw : s.write.result = (RESPONSE.length : Int)) :
    .handshakeError ∉ (handleAcceptedConnection s q0).1.reports ∧
    (∀ e, .readError e ∉ (handleAcceptedConnection s q0).1.reports) ∧
    .shortWriteError ∉ (handleAcceptedConnection s q0).1.reports ∧
    .shutdownCall ∈ (handleAcceptedConnection s q0).1.trace ∧
    (handleAcceptedConnection s q0).1.released = true ∧
    (handleAcceptedConnection s q0).2 = [] ∧
    (s.shutdownPushed ≠ [] → ∃ pre,
      .drainReport (pre ++ s.shutdownPushed) ∈ (handleAcceptedConnection s q0).1.reports) := by
  simp only [handleAcceptedConnection, hh, Bool.not_true, Bool.false_eq_true,
    if_false, hr]
  rw [if_neg (by simp [hw])]
  unfold cleanupHandler
  split
  · rename_i hq
    refine ⟨by simp, fun e => by simp, by simp, by simp, rfl, rfl, fun hsp => ?_⟩
    have h3 : (readLoop s.iters s.handshake.pushed).q = [] ∧
        s.write.pushed = [] ∧ s.shutdownPushed = [] := by simpa using hq
    exact absurd h3.2.2 hsp
  · refine ⟨by simp, fun e => by simp, by simp, by simp, rfl, rfl, fun hsp => ?_⟩
    exact ⟨(readLoop s.iters s.handshake.pushed).q ++ s.write.pushed, by simp⟩

/-- Witness for `shutdown_best_effort`: a shutdown that leaves record 42 on
the queue produces no failure report and the record is drained. -/
theorem shutdown_best_effort_witness :
    .handshakeError ∉ (handleAcceptedConnection
      ⟨⟨true, []⟩, [⟨false, .ok (("\n").toList), []⟩], ⟨(RESPONSE.length : Int), []⟩,
        [42]⟩ []).1.reports ∧
    (handleAcceptedConnection
      ⟨⟨true, []⟩, [⟨false, .ok (("\n").toList), []⟩], ⟨(RESPONSE.length : Int), []⟩,
        [42]⟩ []).2 = [] := by
  have h := shutdown_best_effort
    ⟨⟨true, []⟩, [⟨false, .ok (("\n").toList), []⟩], ⟨(RESPONSE.length : Int), []⟩,
      [42]⟩ [] rfl (by decide) rfl
  exact ⟨h.1, h.2.2.2.2.2.1⟩

/-- **C9.** Diagnostics never leak between consecutive connections: the
handler clears the queue first (`ERR_clear_error` at its entry), so its whole
behaviour is independent of the queue it inherits; a handler that returns
leaves the queue empty; and the accept-failure branch of the loop drains the
queue (continuing with an empty one). -/
theorem no_cross_connection_diagnostics (s : ConnScript) (q q' : ErrQueue)
    (it : LoopIter) (rest : List LoopIter) :
    handleAcceptedConnection s q = handleAcceptedConnection s q' ∧
    ((handleAcceptedConnection s q).1.blocked = false →
      (handleAcceptedConnection s q).2 = []) ∧
    (it.accept.result = false →
      serverLoop (it :: rest) q =
        (serverLoop rest []).prepend
          (.acceptError :: (if (q ++ it.accept.pushed).isEmpty then []
            else [.acceptDrain (q ++ it.accept.pushed)]))
          [.acceptCall] []) := by
  refine ⟨handler_queue_invariant s q q', handler_final_queue s q, fun ha => ?_⟩
  simp [serverLoop, ha]

set_option maxRecDepth 4096 in
/-- Witness for `no_cross_connection_diagnostics`: a handler inheriting the
record 5 behaves as with an empty queue and returns with an empty queue, and
a failed accept with record 3 pushed drains the queue and continues. -/
theorem no_cross_connection_diagnostics_witness :
    handleAcceptedConnection newlineConn [5] = handleAcceptedConnection newlineConn [] ∧
    (handleAcceptedConnection newlineConn [5]).2 = [] ∧
    serverLoop [⟨⟨false, [3]⟩, newlineConn⟩] [] =
      (serverLoop [] []).prepend [.acceptError, .acceptDrain [3]] [.acceptCall] [] := by
  have h := no_cross_connection_diagnostics newlineConn [5] []
    ⟨⟨false, [3]⟩, newlineConn⟩ []
  have h0 := no_cross_connection_diagnostics newlineConn [] []
    ⟨⟨false, [3]⟩, newlineConn⟩ []
  exact ⟨h.1, h.2.1 (by decide), by simpa using h0.2.2 rfl⟩

/-- **C2.** `run_tls_server` returns only by aborting before the accept loop
(the only return paths are the setup/bind failure paths); with a successful,
residue-free setup it never returns, and when every scripted connection's
handler returns (accept failures, handshake failures, read errors, short
writes and shutdown errors included), the loop consumes every scripted
iteration and keeps running. -/
theorem server_loop_resilience (q0 : ErrQueue) (setup : SetupScript)
    (iters : List LoopIter) :
    ((runTlsServer q0 setup iters).isExited = true →
      (runTlsServer q0 setup iters).obs.enteredLoop = false) ∧
    (setup.keyLoad.result = true → setup.certLoad.result = true →
     setup.keyCertCheck.result = true → setup.bindListen.result = true →
     setup.keyLoad.pushed ++ setup.certLoad.pushed ++ setup.keyCertCheck.pushed ++
       setup.bindListen.pushed = [] →
      (runTlsServer q0 setup iters).isExited = false ∧
      ((∀ it ∈ iters, (handleAcceptedConnection it.conn []).1.blocked = false) →
        (runTlsServer q0 setup iters).isRunning = true ∧
        (runTlsServer q0 setup iters).obs.itersProcessed = iters.length ∧
        (runTlsServer q0 setup iters).obs.enteredLoop = true)) := by
  constructor
  · intro hex
    rcases runTlsServer_exit_entered q0 setup iters with hf | he
    · rw [hex] at hf
      cases hf
    · exact he
  · intro hk hc hm hb hq
    have hrun : runTlsServer q0 setup iters = (serverLoop iters []).withSetup := by
      simp only [runTlsServer, hk, hc, hm, hb, Bool.not_true, Bool.false_eq_true,
        if_false]
      rw [hq]
      simp
    refine ⟨by rw [hrun, withSetup_isExited]; exact serverLoop_not_exited .., fun hnb => ?_⟩
    have hl := serverLoop_runs iters [] hnb
    rw [hrun, withSetup_isRunning, withSetup_iters, withSetup_entered]
    exact ⟨hl.1, hl.2, serverLoop_entered ..⟩

set_option maxRecDepth 8192 in
/-- Witness for `server_loop_resilience`: an all-good setup followed by a
failed accept and then a connection whose handshake fails keeps the server
running through both iterations. -/
theorem server_loop_resilience_witness :
    (runTlsServer [] okSetup
      [⟨⟨false, [3]⟩, newlineConn⟩, ⟨⟨true, []⟩, ⟨⟨false, [8]⟩, [], ⟨0, []⟩, []⟩⟩]).isExited
        = false ∧
    (runTlsServer [] okSetup
      [⟨⟨false, [3]⟩, newlineConn⟩, ⟨⟨true, []⟩, ⟨⟨false, [8]⟩, [], ⟨0, []⟩, []⟩⟩]).isRunning
        = true ∧
    (runTlsServer [] okSetup
      [⟨⟨false, [3]⟩, newlineConn⟩, ⟨⟨true, []⟩, ⟨⟨false, [8]⟩, [], ⟨0, []⟩, []⟩⟩]).obs.itersProcessed
        = 2 := by
  have h := server_loop_resilience [] okSetup
    [⟨⟨false, [3]⟩, newlineConn⟩, ⟨⟨true, []⟩, ⟨⟨false, [8]⟩, [], ⟨0, []⟩, []⟩⟩]
  have h2 := h.2 rfl rfl rfl rfl rfl
  have h3 := h2.2 (by decide)
  exact ⟨h2.1, h3.1, h3.2.1⟩

/-- **C5.** `run_tls_server` performs the private-key load, the
certificate-chain load and the key/certificate match check in that order;
each failure produces its own leading report (`Could not load server
keypair`, `Could not load server certificate chain`, `Server keypair does
not match server certificate`), returns 1 — which `main` turns into process
exit code 1 — and never reaches the binding `BIO_do_accept`; when all three
succeed the first five external calls are exactly key load, cert load,
match check, mode set, bind. -/
theorem context_construction_order (q0 : ErrQueue) (setup : SetupScript)
    (iters : List LoopIter) (argv : List String) (hargv : argv.length = 4) :
    (setup.keyLoad.result = false →
      (runTlsServer q0 setup iters).exitCode? = some 1 ∧
      (runTlsServer q0 setup iters).obs.reports.head? = some .keyLoadError ∧
      (runTlsServer q0 setup iters).obs.trace = [.keyLoadCall] ∧
      .bindListenCall ∉ (runTlsServer q0 setup iters).obs.trace ∧
      (runTlsServer q0 setup iters).obs.enteredLoop = false ∧
      (mainFn argv q0 setup iters).outcome.code? = some 1) ∧
    (setup.keyLoad.result = true → setup.certLoad.result = false →
      (runTlsServer q0 setup iters).exitCode? = some 1 ∧
      (runTlsServer q0 setup iters).obs.reports.head? = some .certLoadError ∧
      (runTlsServer q0 setup iters).obs.trace = [.keyLoadCall, .certLoadCall] ∧
      .bindListenCall ∉ (runTlsServer q0 setup iters).obs.trace ∧
      (runTlsServer q0 setup iters).obs.enteredLoop = false ∧
      (mainFn argv q0 setup iters).outcome.code? = some 1) ∧
    (setup.keyLoad.result = true → setup.certLoad.result = true →
     setup.keyCertCheck.result = false →
      (runTlsServer q0 setup iters).exitCode? = some 1 ∧
      (runTlsServer q0 setup iters).obs.reports.head? = some .keyCertMismatchError ∧
      (runTlsServer q0 setup iters).obs.trace =
        [.keyLoadCall, .certLoadCall, .keyCertCheckCall] ∧
      .bindListenCall ∉ (runTlsServer q0 setup iters).obs.trace ∧
      (runTlsServer q0 setup iters).obs.enteredLoop = false ∧
      (mainFn argv q0 setup iters).outcome.code? = some 1) ∧
    (setup.keyLoad.result = true → setup.certLoad.result = true →
     setup.keyCertCheck.result = true →
      (runTlsServer q0 setup iters).obs.trace.take 5 = setupTrace) := by
  have hmain : ∀ c : Nat, (runTlsServer q0 setup iters).exitCode? = some 1 →
      (mainFn argv q0 setup iters).outcome.code? = some 1 := by
    intro c hcode
    rcases exitCode_exists _ 1 hcode with ⟨obs, ho⟩
    simp [mainFn, hargv, ho, MainOutcome.code?]
  refine ⟨fun hk => ?_, fun hk hc => ?_, fun hk hc hm => ?_, fun hk hc hm => ?_⟩
  · have hrun : runTlsServer q0 setup iters =
        serverCleanupFail [.keyLoadError] [.keyLoadCall] setup.keyLoad.pushed := by
      simp only [runTlsServer, hk, Bool.not_false]
      rw [if_pos trivial]
    have hs := serverCleanupFail_single SReport.keyLoadError [SAction.keyLoadCall]
      setup.keyLoad.pushed
    rw [hrun]
    exact ⟨hs.2.1, hs.2.2.2.2, hs.2.2.2.1,
      by rw [hs.2.2.2.1]; decide, hs.2.2.1, hmain 1 (by rw [hrun]; exact hs.2.1)⟩
  · have hrun : runTlsServer q0 setup iters =
        serverCleanupFail [.certLoadError] [.keyLoadCall, .certLoadCall]
          (setup.keyLoad.pushed ++ setup.certLoad.pushed) := by
      simp only [runTlsServer, hk, hc, Bool.not_true, Bool.not_false,
        Bool.false_eq_true, if_false]
      rw [if_pos trivial]
    have hs := serverCleanupFail_single SReport.certLoadError
      [SAction.keyLoadCall, SAction.certLoadCall]
      (setup.keyLoad.pushed ++ setup.certLoad.pushed)
    rw [hrun]
    exact ⟨hs.2.1, hs.2.2.2.2, hs.2.2.2.1,
      by rw [hs.2.2.2.1]; decide, hs.2.2.1, hmain 1 (by rw [hrun]; exact hs.2.1)⟩
  · have hrun : runTlsServer q0 setup iters =
        serverCleanupFail [.keyCertMismatchError]
          [.keyLoadCall, .certLoadCall, .keyCertCheckCall]
          (setup.keyLoad.pushed ++ setup.certLoad.pushed ++ setup.keyCertCheck.pushed) := by
      simp only [runTlsServer, hk, hc, hm, Bool.not_true, Bool.not_false,
        Bool.false_eq_true, if_false]
      rw [if_pos trivial]
    have hs := serverCleanupFail_single SReport.keyCertMismatchError
      [SAction.keyLoadCall, SAction.certLoadCall, SAction.keyCertCheckCall]
      (setup.keyLoad.pushed ++ setup.certLoad.pushed ++ setup.keyCertCheck.pushed)
    rw [hrun]
    exact ⟨hs.2.1, hs.2.2.2.2, hs.2.2.2.1,
      by rw [hs.2.2.2.1]; decide, hs.2.2.1, hmain 1 (by rw [hrun]; exact hs.2.1)⟩
  · by_cases hb : setup.bindListen.result
    · by_cases hq4 : (setup.keyLoad.pushed ++ setup.certLoad.pushed ++
          setup.keyCertCheck.pushed ++ setup.bindListen.pushed).isEmpty
      · have hrun : runTlsServer q0 setup iters = (serverLoop iters []).withSetup := by
          simp only [runTlsServer, hk, hc, hm, hb, Bool.not_true, Bool.false_eq_true,
            if_false, hq4, Bool.not_true]
        rw [hrun, withSetup_trace]
        rw [show (5 : Nat) = setupTrace.length from rfl, List.take_left]
      · simp only [Bool.not_eq_true] at hq4
        have hrun : runTlsServer q0 setup iters =
            serverCleanupFail [.setupResidualError] setupTrace
              (setup.keyLoad.pushed ++ setup.certLoad.pushed ++
               setup.keyCertCheck.pushed ++ setup.bindListen.pushed) := by
          simp only [runTlsServer, hk, hc, hm, hb, Bool.not_true, Bool.false_eq_true,
            if_false, hq4, Bool.not_false]
          rw [if_pos trivial]
        rw [hrun, (serverCleanupFail_single ..).2.2.2.1]
        rfl
    · simp only [Bool.not_eq_true] at hb
      have hrun : runTlsServer q0 setup iters =
          serverCleanupFail [.bindError] setupTrace
            (setup.keyLoad.pushed ++ setup.certLoad.pushed ++
             setup.keyCertCheck.pushed ++ setup.bindListen.pushed) := by
        simp only [runTlsServer, hk, hc, hm, hb, Bool.not_true, Bool.not_false,
          Bool.false_eq_true, if_false]
        rw [if_pos trivial]
      rw [hrun, (serverCleanupFail_single ..).2.2.2.1]
      rfl

/-- Witness for `context_construction_order`: a failed key load aborts with
exit code 1 before any bind; an all-good setup performs the five setup calls
in source order. -/
theorem context_construction_order_witness :
    (runTlsServer [] ⟨⟨false, [11]⟩, ⟨true, []⟩, ⟨true, []⟩, ⟨true, []⟩⟩ []).exitCode?
      = some 1 ∧
    .bindListenCall ∉
      (runTlsServer [] ⟨⟨false, [11]⟩, ⟨true, []⟩, ⟨true, []⟩, ⟨true, []⟩⟩ []).obs.trace ∧
    (runTlsServer [] okSetup []).obs.trace.take 5 = setupTrace := by
  have h := context_construction_order [] ⟨⟨false, [11]⟩, ⟨true, []⟩, ⟨true, []⟩, ⟨true, []⟩⟩
    [] ["tls-server", "4433", "key.pem", "chain.pem"] rfl
  have h2 := context_construction_order [] okSetup []
    ["tls-server", "4433", "key.pem", "chain.pem"] rfl
  exact ⟨(h.1 rfl).1, (h.1 rfl).2.2.2.1, h2.2.2.2 rfl rfl rfl⟩

/-- **C7 counterexample.** The claim says residual diagnostic state before
the accept loop is drained and the loop proceeds.  In the code the pre-loop
`ERR_peek_error()` check aborts instead: with a record left on the queue
during an otherwise fully successful setup, `run_tls_server` reports an
unexpected setup error and returns 1 without ever entering the loop. -/
theorem preloop_residual_aborts_counterexample :
    (runTlsServer [] residualSetup []).isExited = true ∧
    (runTlsServer [] residualSetup []).obs.enteredLoop = false ∧
    SReport.setupResidualError ∈ (runTlsServer [] residualSetup []).obs.reports := by
  decide

/-- **C7 (amended).** Residual diagnostic state present at the pre-loop check
makes the server report an unexpected setup error and abort with exit code 1
(draining the records at cleanup) instead of entering the loop; inside the
loop, the accept-failure branch drains and clears the queue and proceeds,
and a handler that returns leaves the queue empty. -/
theorem diagnostics_drain_amended (q0 : ErrQueue) (setup : SetupScript)
    (iters : List LoopIter) (it : LoopIter) (rest : List LoopIter)
    (q : ErrQueue) (s : ConnScript) :
    (setup.keyLoad.result = true → setup.certLoad.result = true →
     setup.keyCertCheck.result = true → setup.bindListen.result = true →
     setup.keyLoad.pushed ++ setup.certLoad.pushed ++ setup.keyCertCheck.pushed ++
       setup.bindListen.pushed ≠ [] →
      (runTlsServer q0 setup iters).exitCode? = some 1 ∧
      (runTlsServer q0 setup iters).obs.enteredLoop = false ∧
      (runTlsServer q0 setup iters).obs.reports.head? = some .setupResidualError ∧
      .finalDrain (setup.keyLoad.pushed ++ setup.certLoad.pushed ++
        setup.keyCertCheck.pushed ++ setup.bindListen.pushed) ∈
          (runTlsServer q0 setup iters).obs.reports) ∧
    (it.accept.result = false →
      serverLoop (it :: rest) q =
        (serverLoop rest []).prepend
          (.acceptError :: (if (q ++ it.accept.pushed).isEmpty then []
            else [.acceptDrain (q ++ it.accept.pushed)]))
          [.acceptCall] [] ∧
      (serverLoop (it :: rest) q).isExited = false) ∧
    ((handleAcceptedConnection s q).1.blocked = false →
      (handleAcceptedConnection s q).2 = []) := by
  refine ⟨fun hk hc hm hb hq => ?_, fun ha => ?_, handler_final_queue s q⟩
  · have hq4 : (setup.keyLoad.pushed ++ setup.certLoad.pushed ++
        setup.keyCertCheck.pushed ++ setup.bindListen.pushed).isEmpty = false := by
      cases hx : (setup.keyLoad.pushed ++ setup.certLoad.pushed ++
          setup.keyCertCheck.pushed ++ setup.bindListen.pushed) with
      | nil => exact absurd hx hq
      | cons a t => rfl
    have hrun : runTlsServer q0 setup iters =
        serverCleanupFail [.setupResidualError] setupTrace
          (setup.keyLoad.pushed ++ setup.certLoad.pushed ++
           setup.keyCertCheck.pushed ++ setup.bindListen.pushed) := by
      simp only [runTlsServer, hk, hc, hm, hb, Bool.not_true, Bool.false_eq_true,
        if_false, hq4, Bool.not_false]
      rw [if_pos trivial]
    have hs := serverCleanupFail_single SReport.setupResidualError setupTrace
      (setup.keyLoad.pushed ++ setup.certLoad.pushed ++
       setup.keyCertCheck.pushed ++ setup.bindListen.pushed)
    rw [hrun]
    exact ⟨hs.2.1, hs.2.2.1, hs.2.2.2.2, serverCleanupFail_drain _ _ _ hq⟩
  · have heq : serverLoop (it :: rest) q =
        (serverLoop rest []).prepend
          (.acceptError :: (if (q ++ it.accept.pushed).isEmpty then []
            else [.acceptDrain (q ++ it.accept.pushed)]))
          [.acceptCall] [] := by
      simp [serverLoop, ha]
    exact ⟨heq, by rw [heq, prepend_isExited]; exact serverLoop_not_exited ..⟩

set_option maxRecDepth 8192 in
/-- Witness for `diagnostics_drain_amended` at concrete inputs: the residual
setup aborts before the loop; a failed accept drains and continues; a handler
that returned left the queue empty. -/
theorem diagnostics_drain_amended_witness :
    (runTlsServer [] residualSetup []).exitCode? = some 1 ∧
    (runTlsServer [] residualSetup []).obs.enteredLoop = false ∧
    (serverLoop [⟨⟨false, [3]⟩, newlineConn⟩] []).isExited = false ∧
    (handleAcceptedConnection newlineConn [5]).2 = [] := by
  have h := diagnostics_drain_amended [] residualSetup []
    ⟨⟨false, [3]⟩, newlineConn⟩ [] [] newlineConn
  have h5 := diagnostics_drain_amended [] residualSetup []
    ⟨⟨false, [3]⟩, newlineConn⟩ [] [5] newlineConn
  have h1 := h.1 rfl rfl rfl rfl (by decide)
  exact ⟨h1.1, h1.2.1, (h.2.1 rfl).2, h5.2.2 (by decide)⟩

/-- **C10.** A line longer than the buffer never errors or ends the receive
loop by itself: when the next `BUF_SIZE - 1` pending bytes contain no
newline, `BIO_get_line` returns a full-capacity chunk of exactly
`BUF_SIZE - 1` bytes (a positive read, so the error branch is not taken),
the chunk is echoed, it cannot equal `"\r\n"` or `"\n"`, and the loop simply
continues on the remaining bytes. -/
theorem overlong_line_silent_continue (s : List Char) (fuel : Nat) (q : ErrQueue)
    (hlen : BUF_SIZE - 1 ≤ s.length)
    (hnl : ∀ c ∈ s.take (BUF_SIZE - 1), c ≠ '\n') :
    (takeLine (BUF_SIZE - 1) s).1.length = BUF_SIZE - 1 ∧
    0 < (takeLine (BUF_SIZE - 1) s).1.length ∧
    emptyLineTerm (takeLine (BUF_SIZE - 1) s).1 = false ∧
    streamEvents (fuel + 1) s =
      ⟨false, .ok (takeLine (BUF_SIZE - 1) s).1, []⟩ ::
        streamEvents fuel (takeLine (BUF_SIZE - 1) s).2 ∧
    readLoop (streamEvents (fuel + 1) s) q =
      ⟨(readLoop (streamEvents fuel (takeLine (BUF_SIZE - 1) s).2) q).outcome,
       (takeLine (BUF_SIZE - 1) s).1 ::
         (readLoop (streamEvents fuel (takeLine (BUF_SIZE - 1) s).2) q).echoed,
       .readLineCall ::
         (readLoop (streamEvents fuel (takeLine (BUF_SIZE - 1) s).2) q).trace,
       (readLoop (streamEvents fuel (takeLine (BUF_SIZE - 1) s).2) q).q⟩ := by
  have ht := takeLine_no_newline (BUF_SIZE - 1) s hlen hnl
  have hl : (takeLine (BUF_SIZE - 1) s).1.length = BUF_SIZE - 1 := by
    rw [ht]
    simpa using hlen
  have hpos : 0 < (takeLine (BUF_SIZE - 1) s).1.length := by
    rw [hl]
    decide
  have hterm : emptyLineTerm (takeLine (BUF_SIZE - 1) s).1 = false := by
    simp only [emptyLineTerm, Bool.or_eq_false_iff, beq_eq_false_iff_ne, ne_eq]
    constructor
    · intro hcase
      have := congrArg List.length hcase
      rw [hl] at this
      exact absurd this (by decide)
    · intro hcase
      have := congrArg List.length hcase
      rw [hl] at this
      exact absurd this (by decide)
  have hie : (takeLine (BUF_SIZE - 1) s).1.isEmpty = false := by
    cases hx : (takeLine (BUF_SIZE - 1) s).1 with
    | nil =>
      rw [hx] at hpos
      cases hpos
    | cons a t => rfl
  have hev : streamEvents (fuel + 1) s =
      ⟨false, .ok (takeLine (BUF_SIZE - 1) s).1, []⟩ ::
        streamEvents fuel (takeLine (BUF_SIZE - 1) s).2 := by
    simp only [streamEvents, hie, Bool.false_eq_true, if_false]
  refine ⟨hl, hpos, hterm, hev, ?_⟩
  rw [hev]
  simp only [readLoop, Bool.false_eq_true, if_false, hterm, List.append_nil]

/-- Witness for `overlong_line_silent_continue`: a pending stream of 16384
copies of `'a'` yields a first full-capacity chunk of 16383 bytes that is
echoed and does not terminate the loop. -/
theorem overlong_line_silent_continue_witness :
    (takeLine (BUF_SIZE - 1) (List.replicate (BUF_SIZE) 'a')).1.length = BUF_SIZE - 1 ∧
    emptyLineTerm (takeLine (BUF_SIZE - 1) (List.replicate (BUF_SIZE) 'a')).1 = false ∧
    streamEvents 1 (List.replicate (BUF_SIZE) 'a') =
      [⟨false, .ok (takeLine (BUF_SIZE - 1) (List.replicate (BUF_SIZE) 'a')).1, []⟩] := by
  have h := overlong_line_silent_continue (List.replicate (BUF_SIZE) 'a') 0 []
    (by rw [List.length_replicate]; decide)
    (by
      intro c hc
      have hc' : c ∈ List.replicate BUF_SIZE 'a' := List.mem_of_mem_take hc
      rw [List.eq_of_mem_replicate hc']
      decide)
  exact ⟨h.1, h.2.2.1, h.2.2.2.1⟩

end TlsServer
